import Mathlib

/-!
Verification development for the PoofMicro ESP32 builder core
(`src/core/builder.py`, `src/services/esp32_hardware.py`).

The Python code is shallowly embedded: pure functions become Lean
functions over explicit data; the external world (generation-service
replies, subprocess outcomes, the serial device, the clock) is passed in
as explicit environment values; Python exceptions are modelled with
`Except`/`Option`; Python dictionaries are modelled as insertion-ordered
association lists (or, for the simulation registry, as functions to
`Option`); the filesystem is a pair of association lists (files and
directories).  Every definition mirrors the corresponding source
function statement by statement.
-/

/-- Model of a Python runtime value as produced by `json.loads`:
`null`, booleans, integers, strings, lists and (insertion-ordered)
dictionaries with string keys. -/
inductive PyJson where
  | null
  | bool (b : Bool)
  | int (n : Int)
  | str (s : String)
  | arr (elems : List PyJson)
  | obj (entries : List (String × PyJson))

/-- Association-list update, mirroring Python `d[k] = v`: replaces the
first binding of the key in place, otherwise appends. -/
def setKV {κ α : Type} [DecidableEq κ] : List (κ × α) → κ → α → List (κ × α)
  | [], k, v => [(k, v)]
  | (k1, v1) :: rest, k, v =>
      if k1 = k then (k, v) :: rest else (k1, v1) :: setKV rest k v

/-- Association-list lookup, mirroring Python `d.get(k)` on a dict. -/
def lookupKV {κ α : Type} [DecidableEq κ] : List (κ × α) → κ → Option α
  | [], _ => none
  | (k1, v1) :: rest, k => if k1 = k then some v1 else lookupKV rest k

/-- Python whitespace as used by `str.strip()` and the JSON scanner. -/
def isPyWs (c : Char) : Bool :=
  c = ' ' || c = '\t' || c = '\n' || c = '\r' || c = '\x0b' || c = '\x0c'

/-- Python `needle in hay` substring test, on character lists. -/
def pyContainsL (needle : List Char) : List Char → Bool
  | [] => needle.isEmpty
  | c :: rest => needle.isPrefixOf (c :: rest) || pyContainsL needle rest

/-- Python `needle in hay` substring test, on strings. -/
def containsTok (needle hay : String) : Bool :=
  pyContainsL needle.data hay.data

/-- Fuelled worker for Python `str.split(sep)` with a non-empty
separator: splits on each leftmost non-overlapping occurrence.  The fuel
is the haystack length, which suffices because each step consumes at
least one character. -/
def pySplitAux (sep : List Char) : Nat → List Char → List Char → List (List Char)
  | _, [], acc => [acc.reverse]
  | 0, hay, acc => [acc.reverse ++ hay]
  | fuel + 1, c :: rest, acc =>
      if sep.isPrefixOf (c :: rest) then
        acc.reverse :: pySplitAux sep fuel (List.drop (sep.length - 1) rest) []
      else
        pySplitAux sep fuel rest (c :: acc)

/-- Python `hay.split(sep)` for a non-empty separator. -/
def pySplitL (sep hay : List Char) : List (List Char) :=
  pySplitAux sep hay.length hay []

/-- Python `str.strip()`: removes leading and trailing whitespace. -/
def pyStripL (l : List Char) : List Char :=
  ((l.dropWhile isPyWs).reverse.dropWhile isPyWs).reverse

/-- Characters of the generic markdown fence. -/
def fence3 : List Char := "```".data

/-- Characters of the JSON-tagged markdown fence. -/
def fenceJson : List Char := "```json".data

/-- The opening-brace character (written via its code point). -/
def braceOpen : Char := '\x7b'

/-- The closing-brace character (written via its code point). -/
def braceClose : Char := '\x7d'

/-- Reads one JSON string body after the opening quote: returns the
decoded characters and the rest of the input after the closing quote.
Supports the common escape sequences. -/
def strChars : Nat → List Char → Option (List Char × List Char)
  | 0, _ => none
  | _, [] => none
  | fuel + 1, c :: rest =>
      if c = '\"' then some ([], rest)
      else if c = '\\' then
        match rest with
        | [] => none
        | e :: rest2 =>
            let dec? : Option Char :=
              if e = '\"' then some '\"'
              else if e = '\\' then some '\\'
              else if e = '/' then some '/'
              else if e = 'n' then some '\n'
              else if e = 't' then some '\t'
              else if e = 'r' then some '\r'
              else none
            match dec? with
            | none => none
            | some d =>
                match strChars fuel rest2 with
                | some (tail, rem) => some (d :: tail, rem)
                | none => none
      else
        match strChars fuel rest with
        | some (tail, rem) => some (c :: tail, rem)
        | none => none

/-- Reads a run of decimal digits, accumulating their value. -/
def digitsVal : List Char → Nat → Nat × List Char
  | [], acc => (acc, [])
  | c :: rest, acc =>
      if c.isDigit then digitsVal rest (acc * 10 + (c.toNat - 48))
      else (acc, c :: rest)

mutual

/-- Fuelled recursive-descent JSON value reader (model of the CPython
`json` scanner on the JSON core: literals, integers, strings, arrays,
objects). -/
def parseVal : Nat → List Char → Option (PyJson × List Char)
  | 0, _ => none
  | fuel + 1, cs =>
      match cs.dropWhile isPyWs with
      | [] => none
      | c :: rest =>
          if c = 'n' then
            match rest with
            | 'u' :: 'l' :: 'l' :: r => some (.null, r)
            | _ => none
          else if c = 't' then
            match rest with
            | 'r' :: 'u' :: 'e' :: r => some (.bool true, r)
            | _ => none
          else if c = 'f' then
            match rest with
            | 'a' :: 'l' :: 's' :: 'e' :: r => some (.bool false, r)
            | _ => none
          else if c = '\"' then
            match strChars fuel rest with
            | some (chars, rem) => some (.str (String.mk chars), rem)
            | none => none
          else if c = braceOpen then
            match rest.dropWhile isPyWs with
            | d :: r =>
                if d = braceClose then some (.obj [], r)
                else
                  match parseMembers fuel (d :: r) with
                  | some (ms, rem) => some (.obj ms, rem)
                  | none => none
            | [] => none
          else if c = '[' then
            match rest.dropWhile isPyWs with
            | d :: r =>
                if d = ']' then some (.arr [], r)
                else
                  match parseElems fuel (d :: r) with
                  | some (es, rem) => some (.arr es, rem)
                  | none => none
            | [] => none
          else if c = '-' then
            match rest with
            | d :: _ =>
                if d.isDigit then
                  let (n, rem) := digitsVal rest 0
                  some (.int (-(n : Int)), rem)
                else none
            | [] => none
          else if c.isDigit then
            let (n, rem) := digitsVal (c :: rest) 0
            some (.int (n : Int), rem)
          else none

/-- Reads the comma-separated elements of a non-empty JSON array, up to
and including the closing bracket. -/
def parseElems : Nat → List Char → Option (List PyJson × List Char)
  | 0, _ => none
  | fuel + 1, cs =>
      match parseVal fuel cs with
      | none => none
      | some (v, rem) =>
          match rem.dropWhile isPyWs with
          | ',' :: r2 =>
              match parseElems fuel r2 with
              | some (vs, rem2) => some (v :: vs, rem2)
              | none => none
          | ']' :: r2 => some ([v], r2)
          | _ => none

/-- Reads the comma-separated members of a non-empty JSON object, up to
and including the closing brace. -/
def parseMembers : Nat → List Char → Option (List (String × PyJson) × List Char)
  | 0, _ => none
  | fuel + 1, cs =>
      match cs.dropWhile isPyWs with
      | q :: rest =>
          if q = '\"' then
            match strChars fuel rest with
            | none => none
            | some (kchars, rem) =>
                match rem.dropWhile isPyWs with
                | ':' :: r2 =>
                    match parseVal fuel r2 with
                    | none => none
                    | some (v, rem2) =>
                        match rem2.dropWhile isPyWs with
                        | ',' :: r3 =>
                            match parseMembers fuel r3 with
                            | some (ms, rem3) =>
                                some ((String.mk kchars, v) :: ms, rem3)
                            | none => none
                        | d :: r3 =>
                            if d = braceClose then
                              some ([(String.mk kchars, v)], r3)
                            else none
                        | [] => none
                | _ => none
          else none
      | [] => none

end

/-- Model of Python `json.loads` on character lists: `none` models a
raised `json.JSONDecodeError`. -/
def loadsL (cs : List Char) : Option PyJson :=
  match parseVal (3 * cs.length + 3) cs with
  | some (v, rem) => if (rem.dropWhile isPyWs).isEmpty then some v else none
  | none => none

/-- The markdown-fence cleanup step at the top of
`ESP32Builder._parse_generation_response` (and of the other response
handlers that share the same three lines): if a JSON-tagged fence is
present take the text between the first pair of such fences, else if a
generic fence is present take the text between the first pair of
fences; strip the result. -/
def fenceClean (t : List Char) : List Char :=
  if pyContainsL fenceJson t then
    pyStripL ((pySplitL fence3 ((pySplitL fenceJson t).getD 1 [])).getD 0 [])
  else if pyContainsL fence3 t then
    pyStripL ((pySplitL fence3 ((pySplitL fence3 t).getD 1 [])).getD 0 [])
  else t

/-- The brace-substring fallback of `_parse_generation_response`:
`start = content.find("{")`, `end = content.rfind("}") + 1`, and the
slice `content[start:end]` when `start >= 0 and end > start`. -/
def braceSlice (c : List Char) : Option (List Char) :=
  match c.findIdx? (fun ch => ch == braceOpen) with
  | none => none
  | some s =>
      match c.reverse.findIdx? (fun ch => ch == braceClose) with
      | none => none
      | some k =>
          let e := c.length - k
          if s < e then some ((c.drop s).take (e - s)) else none

/-- The empty-manifest default returned by `_parse_generation_response`
when every parse step has failed. -/
def defaultManifest : PyJson :=
  .obj [("files", .obj []), ("platformio_ini", .str ""), ("config", .obj [])]

/-- The fallback tail of `_parse_generation_response`: try the brace
slice of the given text, and degrade to the empty-manifest default. -/
def fallbackParse (c : List Char) : PyJson :=
  match braceSlice c with
  | some sub =>
      match loadsL sub with
      | some j => j
      | none => defaultManifest
  | none => defaultManifest

/-- Embedding of `ESP32Builder._parse_generation_response` (builder.py lines
628-650).  Note that the source reassigns `content` during fence
cleanup, so the brace fallback scans the fenced-and-stripped content,
not the original text.  The function is total: no exception escapes. -/
def parse_generation_response (t : String) : PyJson :=
  let c := fenceClean t.data
  match loadsL c with
  | some j => j
  | none => fallbackParse c

/-- Modelled from the spec: the extractor as the specification words it
in section 4.1 step 4, where the brace fallback scans the original,
unmodified input text rather than the fenced-and-stripped content.
Kept only for comparison against `parse_generation_response`. -/
def parse_generation_response_specC2 (t : String) : PyJson :=
  let c := fenceClean t.data
  match loadsL c with
  | some j => j
  | none => fallbackParse t.data

/-- The manifest shape asserted by the spec: a mapping with a `files`
mapping, a `platformio_ini` string, and a `config` mapping. -/
def manifestShaped (j : PyJson) : Bool :=
  match j with
  | .obj kvs =>
      (match lookupKV kvs "files" with | some (.obj _) => true | _ => false)
      && (match lookupKV kvs "platformio_ini" with | some (.str _) => true | _ => false)
      && (match lookupKV kvs "config" with | some (.obj _) => true | _ => false)
  | _ => false

/-- Splits a character list on a separator character (worker for path
component splitting, mirroring how `pathlib` tokenizes path strings). -/
def splitOnChar (c : Char) : List Char → List (List Char)
  | [] => [[]]
  | x :: rest =>
      let r := splitOnChar c rest
      if x = c then [] :: r
      else
        match r with
        | [] => [[x]]
        | h :: t => (x :: h) :: t

/-- The path components of a file-name string: split on `/` and drop
empty components and `.`, as `pathlib` normalization does. -/
def pathParts (fname : String) : List String :=
  ((splitOnChar '/' fname.data).map (fun l => String.mk l)).filter
    (fun s => s ≠ "" && s ≠ ".")

/-- Model of `pathlib`'s `base / fname`: joins the parts of `fname`
onto `base`, except that an absolute `fname` (leading `/`) replaces the
base, which `pathlib` marks with a root anchor. -/
def pjoin (base : List String) (fname : String) : List String :=
  match fname.data with
  | '/' :: _ => "/" :: pathParts fname
  | _ => base ++ pathParts fname

/-- Model of `pathlib`'s `.parent` on component lists (drops the last
component; the edge cases for empty and single-component paths do not
arise for the firmware paths handled here). -/
def parentDir (p : List String) : List String := p.dropLast

/-- Renders a component path back to a display string, as the f-string
log lines in the source do. -/
def joinPath : List String → String
  | [] => ""
  | [x] => x
  | x :: rest => x ++ "/" ++ joinPath rest

/-- Model of `project_name.replace(" ", "_")`: single-character replacement is a
character-wise map. -/
def replSpace (l : List Char) : List Char :=
  l.map (fun c => if c = ' ' then '_' else c)

/-- Model of `.lower()` on the characters (ASCII model of Python lowercasing). -/
def lowerL (l : List Char) : List Char := l.map Char.toLower

/-- The project-directory slug computed by `generate_code` and
`generate_vision_project`: `project_name.replace(" ", "_").lower()`. -/
def slugOf (name : String) : String := String.mk (lowerL (replSpace name.data))

/-- The filesystem: files keyed by component path, plus the set of
directories that exist (as a duplicate-free-by-construction list). -/
structure FS where
  files : List (List String × String) := []
  dirs : List (List String) := []

/-- Model of `Path.mkdir(exist_ok=True)`: no error and no change if the
directory already exists, else the directory is created. -/
def mkdirExistOk (dirs : List (List String)) (d : List String) : List (List String) :=
  if d ∈ dirs then dirs else dirs ++ [d]

/-- Model of `Path.mkdir(parents=True, exist_ok=True)`: creates the directory
and every missing ancestor. -/
def mkdirParents (dirs : List (List String)) (d : List String) : List (List String) :=
  (d.inits.filter (fun p => !p.isEmpty)).foldl mkdirExistOk dirs

/-- One iteration of the file-writing loop in `generate_code`
(builder.py lines 540-543): `file_path = project_path / filename`,
`file_path.parent.mkdir(parents=True, exist_ok=True)`,
`file_path.write_text(code_content)`. -/
def writeOne (fs : FS) (pd : List String) (fname : String) (content : String) : FS :=
  let path := pjoin pd fname
  { files := setKV fs.files path content,
    dirs := mkdirParents fs.dirs path.dropLast }

/-- The materialization step of `generate_code` (builder.py lines
533-547), the spec's ProjectMaterializer: compute the slugged project
directory under the projects root, create it with `exist_ok=True`,
write every manifest file (overwriting), and write a non-empty
`platformio_ini` blob to `platformio.ini` at the project root. -/
def materialize (fs : FS) (root : List String) (name : String)
    (files : List (String × String)) (pio : String) : FS :=
  let pd := root ++ [slugOf name]
  let fs1 : FS := { fs with dirs := mkdirExistOk fs.dirs pd }
  let fs2 := files.foldl (fun acc kv => writeOne acc pd kv.1 kv.2) fs1
  if pio ≠ "" then
    { fs2 with files := setKV fs2.files (pd ++ ["platformio.ini"]) pio }
  else fs2

/-- Embedding of `BuildResult` (builder.py lines 40-50).  The `code_files`,
`config` and `platformio_ini` fields hold whatever runtime values the
parsed reply supplied, as in Python, so they are typed `PyJson`. -/
structure BuildResult where
  success : Bool
  project_path : Option (List String) := none
  code_files : PyJson := .obj []
  config : PyJson := .obj []
  platformio_ini : PyJson := .str ""
  error : Option String := none
  build_log : List String := []
  timestamp : String := ""

/-- Python `d.get(key, default)`: raises `AttributeError` (modelled as
`Except.error`) when the receiver is not a dict. -/
def pyGetE (j : PyJson) (key : String) (dflt : PyJson) : Except String PyJson :=
  match j with
  | .obj kvs => .ok ((lookupKV kvs key).getD dflt)
  | _ => .error "AttributeError: object has no attribute get"

/-- Python `d.items()`: raises `AttributeError` when the receiver is
not a dict. -/
def pyItemsE (j : PyJson) : Except String (List (String × PyJson)) :=
  match j with
  | .obj kvs => .ok kvs
  | _ => .error "AttributeError: object has no attribute items"

/-- Coercion of a runtime value to `str` as `Path.write_text` demands:
raises `TypeError` for non-string data. -/
def pyAsStrE (j : PyJson) : Except String String :=
  match j with
  | .str s => .ok s
  | _ => .error "TypeError: data must be str"

/-- Python `d[key] = v` on a runtime value: raises `TypeError` when the
receiver does not support item assignment. -/
def pySetItemE (j : PyJson) (key : String) (v : PyJson) : Except String PyJson :=
  match j with
  | .obj kvs => .ok (.obj (setKV kvs key v))
  | _ => .error "TypeError: object does not support item assignment"

/-- Python truthiness of a runtime value (`if result.platformio_ini:`,
`if not model_config:`). -/
def pyTruthy : PyJson → Bool
  | .null => false
  | .bool b => b
  | .int n => n != 0
  | .str s => !s.isEmpty
  | .arr xs => !xs.isEmpty
  | .obj kvs => !kvs.isEmpty

/-- The environment of `generate_code`: the collaborator reply (or the
exception message its call raised), fault injectors for the directory
creation and for each file write (`none` = the I/O succeeds), and the
clock.  A write fault covers the parent-mkdir plus the write of that
one file. -/
structure GenEnv where
  chat : Except String String
  mkdirFault : List String → Option String
  writeFault : List String → Option String
  now : String

/-- The file-writing loop of `generate_code` with fault injection; an
error carries the filesystem as mutated so far (files written before
the exception stay on disk, as in Python). -/
def writeLoopE (env : GenEnv) (pd : List String) :
    List (String × PyJson) → FS → Except (String × FS) FS
  | [], fs => .ok fs
  | (fname, cj) :: rest, fs =>
      match cj with
      | .str s =>
          match env.writeFault (pjoin pd fname) with
          | some e => .error (e, fs)
          | none => writeLoopE env pd rest (writeOne fs pd fname s)
      | _ => .error ("TypeError: data must be str", fs)

/-- The body of the `try:` block of `ESP32Builder.generate_code`
(builder.py lines 515-551) up to the two final statements (which
cannot raise and are applied by the wrapper): an exception at any step
returns `Except.error` carrying the message together with the
`BuildResult` and filesystem exactly as mutated so far. -/
def generateCodeBody (env : GenEnv) (fs : FS) (root : List String) (name : String) :
    Except (String × BuildResult × FS) (BuildResult × FS) :=
  let r0 : BuildResult := { success := false, timestamp := env.now }
  match env.chat with
  | .error e => .error (e, r0, fs)
  | .ok content =>
      let parsed := parse_generation_response content
      match pyGetE parsed "files" (.obj []) with
      | .error e => .error (e, r0, fs)
      | .ok filesJ =>
          let r1 := { r0 with code_files := filesJ }
          match pyGetE parsed "platformio_ini" (.str "") with
          | .error e => .error (e, r1, fs)
          | .ok pioJ =>
              let r2 := { r1 with platformio_ini := pioJ }
              match pyGetE parsed "config" (.obj []) with
              | .error e => .error (e, r2, fs)
              | .ok cfgJ =>
                  let r3 := { r2 with config := cfgJ }
                  let pd := root ++ [slugOf name]
                  match env.mkdirFault pd with
                  | some e => .error (e, r3, fs)
                  | none =>
                      let fs1 : FS := { fs with dirs := mkdirExistOk fs.dirs pd }
                      let r4 := { r3 with project_path := some pd }
                      match pyItemsE filesJ with
                      | .error e => .error (e, r4, fs1)
                      | .ok entries =>
                          match writeLoopE env pd entries fs1 with
                          | .error (e, fsx) => .error (e, r4, fsx)
                          | .ok fs2 =>
                              if pyTruthy r4.platformio_ini then
                                match pyAsStrE r4.platformio_ini with
                                | .error e => .error (e, r4, fs2)
                                | .ok pioS =>
                                    match env.writeFault (pd ++ ["platformio.ini"]) with
                                    | some e => .error (e, r4, fs2)
                                    | none =>
                                        .ok (r4, { fs2 with
                                          files := setKV fs2.files
                                            (pd ++ ["platformio.ini"]) pioS })
                              else .ok (r4, fs2)

/-- Embedding of `ESP32Builder.generate_code` (builder.py lines 508-556): on normal
completion set `success` and append the creation log line (the two
final in-`try` statements, which cannot raise); on any exception record
the message in `error`, append the error log line, and return — the
exception never escapes. -/
def generate_code (env : GenEnv) (fs : FS) (root : List String) (name : String) :
    BuildResult × FS :=
  match generateCodeBody env fs root name with
  | .ok (r, fs2) =>
      ({ r with
          success := true
          build_log := r.build_log ++
            ["Project created at: " ++ joinPath (root ++ [slugOf name])] }, fs2)
  | .error (e, r, fs2) =>
      ({ r with
          error := some e
          build_log := r.build_log ++ ["Error: " ++ e] }, fs2)

/-- The environment of `generate_vision_project`: the reply (or raised
exception) of the detection-model collaborator call, the reply of the
project-generation call, I/O fault injectors, and the clock. -/
structure VisionEnv where
  detectionChat : Except String String
  chat : Except String String
  mkdirFault : List String → Option String
  writeFault : List String → Option String
  now : String

/-- Embedding of `ESP32Builder.create_detection_model` (builder.py lines 300-367):
one collaborator call; the reply is stripped, fence-cleaned and parsed;
a non-dict result or any exception degrades to the empty dict.
Returns the model config together with the trace of collaborator calls
made. -/
def create_detection_model (env : VisionEnv) : PyJson × List String :=
  match env.detectionChat with
  | .error _ => (.obj [], ["detection-model-llm"])
  | .ok content =>
      let c := fenceClean (pyStripL content.data)
      match loadsL c with
      | some j =>
          match j with
          | .obj kvs => (.obj kvs, ["detection-model-llm"])
          | _ => (.obj [], ["detection-model-llm"])
      | none => (.obj [], ["detection-model-llm"])

/-- The vision variant's write-loop and manifest handling (the body of
the `try:` block of `generate_vision_project`, builder.py lines
399-435, after the model config has been obtained): identical to
`generateCodeBody` except that the detection-model manifest is stored
into `result.config` under `"model_config"` before materialization. -/
def visionBody (env : VisionEnv) (fs : FS) (root : List String) (name : String)
    (model_config : PyJson) :
    Except (String × BuildResult × FS) (BuildResult × FS) :=
  let genv : GenEnv :=
    { chat := env.chat, mkdirFault := env.mkdirFault,
      writeFault := env.writeFault, now := env.now }
  let r0 : BuildResult := { success := false, timestamp := env.now }
  match env.chat with
  | .error e => .error (e, r0, fs)
  | .ok content =>
      let parsed := parse_generation_response content
      match pyGetE parsed "files" (.obj []) with
      | .error e => .error (e, r0, fs)
      | .ok filesJ =>
          let r1 := { r0 with code_files := filesJ }
          match pyGetE parsed "platformio_ini" (.str "") with
          | .error e => .error (e, r1, fs)
          | .ok pioJ =>
              let r2 := { r1 with platformio_ini := pioJ }
              match pyGetE parsed "config" (.obj []) with
              | .error e => .error (e, r2, fs)
              | .ok cfgJ =>
                  let r3 := { r2 with config := cfgJ }
                  match pySetItemE r3.config "model_config" model_config with
                  | .error e => .error (e, r3, fs)
                  | .ok cfg2 =>
                      let r3b := { r3 with config := cfg2 }
                      let pd := root ++ [slugOf name]
                      match env.mkdirFault pd with
                      | some e => .error (e, r3b, fs)
                      | none =>
                          let fs1 : FS := { fs with dirs := mkdirExistOk fs.dirs pd }
                          let r4 := { r3b with project_path := some pd }
                          match pyItemsE filesJ with
                          | .error e => .error (e, r4, fs1)
                          | .ok entries =>
                              match writeLoopE genv pd entries fs1 with
                              | .error (e, fsx) => .error (e, r4, fsx)
                              | .ok fs2 =>
                                  if pyTruthy r4.platformio_ini then
                                    match pyAsStrE r4.platformio_ini with
                                    | .error e => .error (e, r4, fs2)
                                    | .ok pioS =>
                                        match env.writeFault (pd ++ ["platformio.ini"]) with
                                        | some e => .error (e, r4, fs2)
                                        | none =>
                                            .ok (r4, { fs2 with
                                              files := setKV fs2.files
                                                (pd ++ ["platformio.ini"]) pioS })
                                  else .ok (r4, fs2)

/-- Renders `", ".join(objects)`. -/
def joinComma : List String → String
  | [] => ""
  | [x] => x
  | x :: rest => x ++ ", " ++ joinComma rest

/-- Embedding of `ESP32Builder.generate_vision_project` (builder.py lines 369-441).
Returns the build result, the filesystem, and the trace of collaborator
calls performed.  An empty object list fails fast with the dedicated
error before any collaborator call; an empty (falsy) detection-model
config aborts next; otherwise the generate-extract-materialize sequence
runs with the model config merged under `config["model_config"]`. -/
def generate_vision_project (env : VisionEnv) (fs : FS) (root : List String)
    (project_name : String) (objects : List String) (board : String) :
    BuildResult × FS × List String :=
  let r0 : BuildResult := { success := false, timestamp := env.now }
  if objects.isEmpty then
    ({ r0 with error := some "No objects specified for detection" }, fs, [])
  else
    let mc := create_detection_model env
    if !(pyTruthy mc.1) then
      ({ r0 with error := some "Failed to generate detection model" }, fs, mc.2)
    else
      match visionBody env fs root project_name mc.1 with
      | .ok (r, fs2) =>
          ({ r with
              success := true
              build_log := r.build_log ++
                ["Vision project created at: " ++ joinPath (root ++ [slugOf project_name]),
                 "Objects to detect: " ++ joinComma objects] }, fs2,
           mc.2 ++ ["vision-generation-llm"])
      | .error (e, r, fs2) =>
          ({ r with
              error := some e
              build_log := r.build_log ++ ["Error: " ++ e] }, fs2,
           mc.2 ++ ["vision-generation-llm"])

/-- Outcome of one `subprocess.run` invocation, as seen by the caller:
a completed process with exit code and captured output, a raised
`TimeoutExpired`, a raised `FileNotFoundError` (tool binary missing),
or some other raised exception.  The message argument models `str(e)`
for the raised cases. -/
inductive RunOutcome where
  | completed (returncode : Int) (stdout : String) (stderr : String)
  | timedOut (msg : String)
  | toolMissing (msg : String)
  | otherExc (msg : String)

/-- The uniform result dictionary of the upload operations; fields that
a branch's dictionary literal omits are `none`. -/
structure UploadResult where
  success : Bool
  stdout : Option String := none
  stderr : Option String := none
  port : Option String := none
  error : Option String := none
deriving DecidableEq

/-- A recorded subprocess invocation: the tool run and, when the call
set one, the working directory. -/
structure Invocation where
  tool : String
  cwd : Option (List String)
deriving DecidableEq

/-- The hardware environment: the outcome of running the primary
flashing tool, the outcome of running platformio as a function of the
working directory it is started in, and what `detect_esp32` would
resolve. -/
structure HwEnv where
  esptoolRun : RunOutcome
  pioRun : List String → RunOutcome
  detected : Option String

/-- Embedding of `ESP32Hardware.upload_with_platformio` (esp32_hardware.py lines
131-162): runs `platformio run --target upload --upload-port <port>`
with working directory `firmware_path.parent.parent`; a completed run
reports success iff the exit code is zero, carrying stderr as the error
on failure; any raised exception is caught and reported as
`str(e)`.  Also returns the invocation trace. -/
def upload_with_platformio (env : HwEnv) (firmware_path : List String) (port : String) :
    UploadResult × List Invocation :=
  let project_dir := parentDir (parentDir firmware_path)
  match env.pioRun project_dir with
  | .completed rc out err =>
      ({ success := rc == 0, stdout := some out, stderr := some err, port := some port,
         error := if rc != 0 then some err else none },
       [⟨"platformio", some project_dir⟩])
  | .timedOut m => ({ success := false, error := some m }, [⟨"platformio", some project_dir⟩])
  | .toolMissing m => ({ success := false, error := some m }, [⟨"platformio", some project_dir⟩])
  | .otherExc m => ({ success := false, error := some m }, [⟨"platformio", some project_dir⟩])

/-- Embedding of `ESP32Hardware.upload_firmware` (esp32_hardware.py lines 86-129):
resolve the port (via detection when omitted, failing with "No ESP32
detected"); run `esptool.py` with the fixed flash arguments; a
completed run maps exit code zero to success and nonzero to a failure
carrying stderr; `TimeoutExpired` is reported as the distinct
"Upload timeout" failure with no fallback; `FileNotFoundError` falls
back to `upload_with_platformio` exactly once and returns its result;
any other exception is caught and reported. -/
def upload_firmware (env : HwEnv) (firmware_path : List String) (port? : Option String) :
    UploadResult × List Invocation :=
  let portR : Option String :=
    match port? with
    | some p => some p
    | none => env.detected
  match portR with
  | none => ({ success := false, error := some "No ESP32 detected" }, [])
  | some port =>
      match env.esptoolRun with
      | .completed rc out err =>
          ({ success := rc == 0, stdout := some out, stderr := some err, port := some port,
             error := if rc == 0 then none else some err },
           [⟨"esptool.py", none⟩])
      | .timedOut _ =>
          ({ success := false, error := some "Upload timeout" }, [⟨"esptool.py", none⟩])
      | .toolMissing _ =>
          let r := upload_with_platformio env firmware_path port
          (r.1, ⟨"esptool.py", none⟩ :: r.2)
      | .otherExc m =>
          ({ success := false, error := some m }, [⟨"esptool.py", none⟩])

/-- One serial connection object ever constructed by the bridge, with
its port and whether it is still open. -/
structure ConnRec where
  port : String
  isOpen : Bool
deriving DecidableEq

/-- The serial-connection state of an `ESP32Hardware` instance: every
connection object constructed so far (indexed by position) and which
one `self.serial_conn` currently references. -/
structure HwSerialState where
  conns : List ConnRec := []
  serial_conn : Option Nat := none
deriving DecidableEq

/-- Embedding of `ESP32Hardware.connect` with a resolved port (esp32_hardware.py
lines 52-75): on a successful `serial.Serial(...)` construction the new
open connection is assigned to `self.serial_conn` — the previously
referenced connection is neither closed nor touched — and the method
returns `True`; if the constructor raises, the exception is caught, the
state is unchanged, and the method returns `False`.  (The DTR reset
handshake does not alter the tracked state.) -/
def connect (st : HwSerialState) (port : String) (openOk : Bool) : HwSerialState × Bool :=
  if openOk then
    ({ conns := st.conns ++ [{ port := port, isOpen := true }],
       serial_conn := some st.conns.length }, true)
  else (st, false)

/-- Marks the connection at an index closed. -/
def closeAt : List ConnRec → Nat → List ConnRec
  | [], _ => []
  | c :: rest, 0 => { c with isOpen := false } :: rest
  | c :: rest, n + 1 => c :: closeAt rest n

/-- Embedding of `ESP32Hardware.disconnect` (esp32_hardware.py lines 77-84): closes
the referenced connection if any and clears the reference;
idempotent. -/
def disconnect (st : HwSerialState) : HwSerialState :=
  match st.serial_conn with
  | some i => { conns := closeAt st.conns i, serial_conn := none }
  | none => st

/-- The number of connections currently open (live). -/
def openConns (st : HwSerialState) : Nat :=
  (st.conns.filter (fun c => c.isOpen)).length

/-- One simulation session, as built by `ESP32Simulator.simulate_project`
(builder.py lines 663-672).  Keys that the Python dict only gains
conditionally (`has_wifi`) are modelled with a `false` default. -/
structure SimSession where
  project_name : String
  board_type : String
  status : String
  ip_address : Option String
  ap_ssid : Option String
  web_server : Bool
  logs : List String
  started_at : String
  has_wifi : Bool
deriving DecidableEq

/-- The process-wide registry `active_simulations`, keyed by project
name. -/
def SimRegistry : Type := String → Option SimSession

/-- Formats an optional string the way a Python f-string formats the
dict value (`None` prints as `"None"`). -/
def fmtOpt : Option String → String
  | some s => s
  | none => "None"

/-- Embedding of `ESP32Simulator.simulate_project` (builder.py lines 659-709) for a
project at `path`: the session starts as `starting` and is registered;
when the primary source file is present (its text passed as
`some code`) the case-sensitive substring checks for the networking
stack, access-point initialization and web servers run in order, the
status becomes `running` and the descriptive log lines are appended;
when the file is absent the status is `error`.  The registry entry and
the returned session are the same final session (the dict is mutated
in place in Python). -/
def simulate_project (reg : SimRegistry) (path : List String) (board now : String)
    (mainCpp : Option String) : SimSession × SimRegistry :=
  let project_name := path.getLastD ""
  let s0 : SimSession :=
    { project_name := project_name, board_type := board, status := "starting",
      ip_address := none, ap_ssid := none, web_server := false, logs := [],
      started_at := now, has_wifi := false }
  let s :=
    match mainCpp with
    | some code =>
        let s1 :=
          if containsTok "WiFi" code || containsTok "WIFI" code then
            { s0 with has_wifi := true, ip_address := some "192.168.1.100" }
          else s0
        let s2 :=
          if containsTok "WiFi.softAP" code || containsTok "softAP" code then
            { s1 with ap_ssid := some (project_name ++ "_AP"),
                      ip_address := some "192.168.4.1" }
          else s1
        let s3 :=
          if containsTok "WebServer" code || containsTok "server.begin" code
              || containsTok "HTTPServer" code then
            { s2 with web_server := true }
          else s2
        let s4 := { s3 with
          status := "running"
          logs := s3.logs ++ ["Simulation started successfully", "Board: " ++ board] }
        let s5 :=
          match s4.ip_address with
          | some ip => { s4 with logs := s4.logs ++ ["IP Address: " ++ ip] }
          | none => s4
        let s6 :=
          match s5.ap_ssid with
          | some ap => { s5 with logs := s5.logs ++ ["AP SSID: " ++ ap] }
          | none => s5
        if s6.web_server then
          { s6 with logs := s6.logs ++
              ["Web server running on http://" ++ fmtOpt s6.ip_address] }
        else s6
    | none =>
        { s0 with status := "error", logs := ["Error: main.cpp not found"] }
  (s, fun n => if n = project_name then some s else reg n)

/-- Embedding of `ESP32Simulator.stop_simulation` (builder.py lines 715-720):
deletes the session for the name and returns `True` when present,
returns `False` leaving the registry unchanged otherwise. -/
def stop_simulation (reg : SimRegistry) (name : String) : Bool × SimRegistry :=
  match reg name with
  | some _ => (true, fun n => if n = name then none else reg n)
  | none => (false, reg)

/-- A serial port as the pinned pyserial (`pyserial>=3.5`, setup.py)
enumerates it: `ListPortInfo` always defines the `vid`/`pid`
attributes, holding `None` — modelled `none` — when the identifier is
unavailable (so the source's `hasattr(port, 'vid')` test is always
true); `description` and `hwid` may likewise be `None`, which the
source guards with `or ""`. -/
structure OsPort where
  device : String
  description : Option String
  hwid : Option String
  vid : Option Nat
  pid : Option Nat
deriving DecidableEq

/-- One entry of the `list_ports` reply. -/
structure PortEntry where
  device : String
  description : String
  hwid : String
  vid : String
  pid : String
deriving DecidableEq

/-- Python `hex(n)` for a non-negative argument: `"0x"` followed by
lowercase hexadecimal digits. -/
def pyHex (n : Nat) : String := "0x" ++ String.mk (Nat.toDigits 16 n)

/-- Model of `hex(port.vid)` on a vid/pid attribute value: `hex` of an
integer yields the hex string, while `hex(None)` raises `TypeError`.
Because the pinned pyserial always defines the attribute, the source's
`hasattr` test is always true and its `"0000"` else-branch is dead
code: the dict literal always evaluates this call. -/
def pyHexAttr (v : Option Nat) : Except String String :=
  match v with
  | some n => .ok (pyHex n)
  | none => .error "TypeError: 'NoneType' object cannot be interpreted as an integer"

/-- The entry built for one port by the loop body of
`ESP32Hardware.list_ports` (esp32_hardware.py lines 22-29): the dict
literal evaluates its values in order, so a `TypeError` raised by
`hex(port.vid)` aborts before `pid` is computed. -/
def portEntryOfE (p : OsPort) : Except String PortEntry :=
  match pyHexAttr p.vid with
  | .error e => .error e
  | .ok vidS =>
      match pyHexAttr p.pid with
      | .error e => .error e
      | .ok pidS =>
          .ok { device := p.device
                description := p.description.getD ""
                hwid := p.hwid.getD ""
                vid := vidS
                pid := pidS }

/-- Embedding of `ESP32Hardware.list_ports` (esp32_hardware.py lines
19-30) under the pinned pyserial: one entry is appended per enumerated
port, and a `TypeError` raised while building an entry propagates to
the caller, discarding the listing. -/
def list_ports (ports : List OsPort) : Except String (List PortEntry) :=
  match ports with
  | [] => .ok []
  | p :: rest =>
      match portEntryOfE p with
      | .error e => .error e
      | .ok entry =>
          match list_ports rest with
          | .error e => .error e
          | .ok entries => .ok (entry :: entries)

/-! Helper lemmas about the association-list and directory primitives. -/

theorem lookupKV_setKV_self {κ α : Type} [DecidableEq κ] (m : List (κ × α)) (k : κ) (v : α) :
    lookupKV (setKV m k v) k = some v := by
  induction m with
  | nil => simp [setKV, lookupKV]
  | cons kv rest ih =>
      obtain ⟨k1, v1⟩ := kv
      by_cases hk : k1 = k
      · simp [setKV, hk, lookupKV]
      · simp [setKV, hk, lookupKV, ih]

theorem lookupKV_setKV_ne {κ α : Type} [DecidableEq κ] (m : List (κ × α)) (k k' : κ) (v : α)
    (hne : k' ≠ k) : lookupKV (setKV m k v) k' = lookupKV m k' := by
  have h4 : ¬ k = k' := fun h => hne h.symm
  induction m with
  | nil => simp [setKV, lookupKV, h4]
  | cons kv rest ih =>
      obtain ⟨k1, v1⟩ := kv
      by_cases hk : k1 = k
      · have h2 : ¬ k1 = k' := fun h => hne (h.symm.trans hk)
        simp [setKV, hk, lookupKV, h2, h4]
      · by_cases h1 : k1 = k'
        · simp [setKV, hk, lookupKV, h1, hne]
        · simp [setKV, hk, lookupKV, h1, ih]

theorem writeFold_files_notmem (pd : List String) (entries : List (String × String))
    (fs : FS) (target : List String)
    (h : ∀ kv ∈ entries, pjoin pd kv.1 ≠ target) :
    lookupKV ((entries.foldl (fun acc kv => writeOne acc pd kv.1 kv.2) fs)).files target
      = lookupKV fs.files target := by
  induction entries generalizing fs with
  | nil => rfl
  | cons kv rest ih =>
      rw [List.foldl_cons]
      rw [ih _ (fun x hx => h x (List.mem_cons_of_mem _ hx))]
      exact lookupKV_setKV_ne _ _ _ _ (Ne.symm (h kv (List.mem_cons_self _ _)))

theorem writeFold_files_mem (pd : List String) (entries : List (String × String))
    (fs : FS) (p c : String)
    (hmem : (p, c) ∈ entries)
    (hnd : (entries.map (fun kv => pjoin pd kv.1)).Nodup) :
    lookupKV ((entries.foldl (fun acc kv => writeOne acc pd kv.1 kv.2) fs)).files
      (pjoin pd p) = some c := by
  induction entries generalizing fs with
  | nil => cases hmem
  | cons kv rest ih =>
      rw [List.foldl_cons]
      rw [List.map_cons] at hnd
      have hnd' := List.nodup_cons.mp hnd
      rcases List.mem_cons.mp hmem with heq | hmem'
      · have hkv : kv = (p, c) := heq.symm
        subst hkv
        have hnotin : ∀ x ∈ rest, pjoin pd x.1 ≠ pjoin pd p := by
          intro x hx heq2
          exact hnd'.1 (heq2 ▸ List.mem_map_of_mem _ hx)
        rw [writeFold_files_notmem pd rest _ _ hnotin]
        simp [writeOne, lookupKV_setKV_self]
      · exact ih _ hmem' hnd'.2

theorem mem_mkdirExistOk_self (dirs : List (List String)) (d : List String) :
    d ∈ mkdirExistOk dirs d := by
  unfold mkdirExistOk
  split
  · assumption
  · simp

theorem mem_mkdirExistOk_of_mem (dirs : List (List String)) (d x : List String)
    (h : x ∈ dirs) : x ∈ mkdirExistOk dirs d := by
  unfold mkdirExistOk
  split
  · exact h
  · exact List.mem_append_left _ h

theorem mem_foldl_mkdirExistOk (l : List (List String)) (dirs : List (List String))
    (x : List String) (h : x ∈ dirs) : x ∈ l.foldl mkdirExistOk dirs := by
  induction l generalizing dirs with
  | nil => exact h
  | cons a rest ih => exact ih _ (mem_mkdirExistOk_of_mem _ _ _ h)

theorem mem_writeOne_dirs (fs : FS) (pd : List String) (fname c : String) (x : List String)
    (h : x ∈ fs.dirs) : x ∈ (writeOne fs pd fname c).dirs :=
  mem_foldl_mkdirExistOk _ _ _ h

theorem mem_writeFold_dirs (pd : List String) (entries : List (String × String))
    (fs : FS) (x : List String) (h : x ∈ fs.dirs) :
    x ∈ ((entries.foldl (fun acc kv => writeOne acc pd kv.1 kv.2) fs)).dirs := by
  induction entries generalizing fs with
  | nil => exact h
  | cons kv rest ih =>
      rw [List.foldl_cons]
      exact ih _ (mem_writeOne_dirs _ _ _ _ _ h)

theorem pd_mem_materialize (fs : FS) (root : List String) (name : String)
    (files : List (String × String)) (pio : String) :
    (root ++ [slugOf name]) ∈ (materialize fs root name files pio).dirs := by
  unfold materialize
  split
  · exact mem_writeFold_dirs _ _ _ _ (mem_mkdirExistOk_self _ _)
  · exact mem_writeFold_dirs _ _ _ _ (mem_mkdirExistOk_self _ _)

theorem nodup_mkdirExistOk (dirs : List (List String)) (d : List String)
    (h : dirs.Nodup) : (mkdirExistOk dirs d).Nodup := by
  unfold mkdirExistOk
  split
  · exact h
  · rename_i hd
    rw [List.nodup_append]
    exact ⟨h, List.nodup_singleton _, fun x hx hx1 => hd (by simpa using (List.mem_singleton.mp hx1) ▸ hx)⟩

theorem nodup_foldl_mkdirExistOk (l : List (List String)) (dirs : List (List String))
    (h : dirs.Nodup) : (l.foldl mkdirExistOk dirs).Nodup := by
  induction l generalizing dirs with
  | nil => exact h
  | cons a rest ih => exact ih _ (nodup_mkdirExistOk _ _ h)

theorem nodup_writeFold_dirs (pd : List String) (entries : List (String × String))
    (fs : FS) (h : fs.dirs.Nodup) :
    ((entries.foldl (fun acc kv => writeOne acc pd kv.1 kv.2) fs)).dirs.Nodup := by
  induction entries generalizing fs with
  | nil => exact h
  | cons kv rest ih =>
      rw [List.foldl_cons]
      exact ih _ (nodup_foldl_mkdirExistOk _ _ h)

theorem nodup_materialize (fs : FS) (root : List String) (name : String)
    (files : List (String × String)) (pio : String) (h : fs.dirs.Nodup) :
    (materialize fs root name files pio).dirs.Nodup := by
  unfold materialize
  split
  · exact nodup_writeFold_dirs _ _ _ (nodup_mkdirExistOk _ _ h)
  · exact nodup_writeFold_dirs _ _ _ (nodup_mkdirExistOk _ _ h)

theorem mkdirExistOk_of_mem (dirs : List (List String)) (d : List String)
    (h : d ∈ dirs) : mkdirExistOk dirs d = dirs := by
  unfold mkdirExistOk
  exact if_pos h

/-- Claim C8: `generate_vision_project` called with an empty
`objects_to_detect` list returns a `BuildResult` with `success=false`
and the specific error "No objects specified for detection", and
performs no collaborator calls (the returned call trace is empty). -/
theorem generate_vision_project_empty_objects (env : VisionEnv) (fs : FS)
    (root : List String) (name board : String) :
    generate_vision_project env fs root name [] board =
      ({ success := false
         error := some "No objects specified for detection"
         timestamp := env.now }, fs, []) := rfl

/-- A concrete USB port whose vendor/product identifiers are
available. -/
def portU0W : OsPort :=
  { device := "/dev/ttyUSB0"
    description := some "CP2102 USB to UART"
    hwid := some "USB VID:PID=10C4:EA60"
    vid := some 0x10c4
    pid := some 0xea60 }

/-- A concrete native UART port whose vendor/product identifiers are
unavailable: under the pinned pyserial its `vid`/`pid` attributes exist
and hold `None`. -/
def portS0W : OsPort :=
  { device := "/dev/ttyS0", description := none, hwid := none, vid := none, pid := none }

/-- Claim C9, the code bug evaluated: under the pinned pyserial every
enumerated port carries the `vid`/`pid` attributes (holding `None` when
the identifier is unavailable), so the source's `hasattr` guard never
selects the "0000" placeholder; on a port without a USB vendor
identifier — such as the native UART /dev/ttyS0 — `hex(None)` raises
`TypeError` and `list_ports` propagates it, discarding the listing,
instead of reporting the port with the zero placeholder as claimed.
A port whose identifiers are available is reported with hex strings as
claimed. -/
theorem list_ports_raises_on_none_vid :
    list_ports [portS0W] =
      .error "TypeError: 'NoneType' object cannot be interpreted as an integer" ∧
    list_ports [portU0W, portS0W] =
      .error "TypeError: 'NoneType' object cannot be interpreted as an integer" ∧
    list_ports [portU0W] =
      .ok [{ device := "/dev/ttyUSB0"
             description := "CP2102 USB to UART"
             hwid := "USB VID:PID=10C4:EA60"
             vid := "0x10c4"
             pid := "0xea60" }] :=
  ⟨rfl, rfl, rfl⟩

/-- Claim C10: `stop_simulation` removes exactly the session keyed by
the given name and returns `True` when it exists, leaving every other
name's session unchanged; when absent it returns `False` and leaves the
registry entirely unchanged. -/
theorem stop_simulation_frame (reg : SimRegistry) (name : String) :
    (∀ s, reg name = some s →
        (stop_simulation reg name).1 = true ∧
        (stop_simulation reg name).2 name = none ∧
        ∀ m, m ≠ name → (stop_simulation reg name).2 m = reg m)
    ∧ (reg name = none →
        (stop_simulation reg name).1 = false ∧ (stop_simulation reg name).2 = reg) := by
  unfold stop_simulation
  constructor
  · intro s h
    rw [h]
    exact ⟨rfl, by simp, fun m hm => by simp [hm]⟩
  · intro h
    rw [h]
    exact ⟨rfl, rfl⟩

/-- A concrete session for the C10 witness. -/
def sessW : SimSession :=
  { project_name := "blinky"
    board_type := "esp32"
    status := "running"
    ip_address := none
    ap_ssid := none
    web_server := false
    logs := []
    started_at := "T"
    has_wifi := false }

/-- A concrete one-entry registry for the C10 witness. -/
def regW : SimRegistry := fun n => if n = "blinky" then some sessW else none

/-- Witness for C10 at a concrete registry: stopping "blinky" returns
true, removes its session, and leaves the (absent) entry for another
name unchanged. -/
theorem stop_simulation_frame_witness :
    (stop_simulation regW "blinky").1 = true ∧
    (stop_simulation regW "blinky").2 "blinky" = none ∧
    (stop_simulation regW "blinky").2 "other" = none := by
  have h := (stop_simulation_frame regW "blinky").1 sessW (by simp [regW])
  refine ⟨h.1, h.2.1, (h.2.2 "other" (by decide)).trans ?_⟩
  simp [regW]

/-- The bridge state after connecting to "p1". -/
def hwStA : HwSerialState := (connect {} "p1" true).1

/-- The bridge state after then connecting to "p2" without an
intervening disconnect. -/
def hwStB : HwSerialState := (connect hwStA "p2" true).1

/-- Counterexample to claim C5: after a second successful `connect` the
prior connection is still open — two live connections exist, with the
reference pointing only at the second — so `connect` does not close the
prior connection and an open connection is abandoned unclosed. -/
theorem connect_leaves_prior_open_cex :
    openConns hwStB = 2 ∧
    hwStB.serial_conn = some 1 ∧
    hwStB.conns = [{ port := "p1", isOpen := true }, { port := "p2", isOpen := true }] :=
  ⟨rfl, rfl, rfl⟩

/-- Claim C5 amended: a successful `connect` re-points the single
`serial_conn` reference at the newly opened connection and leaves every
previously created connection untouched — in particular it never closes
the prior connection; only `disconnect` closes the referenced one. -/
theorem connect_preserves_prior_connections (st : HwSerialState) (port : String) :
    (connect st port true).1.conns = st.conns ++ [{ port := port, isOpen := true }] ∧
    (connect st port true).1.serial_conn = some st.conns.length ∧
    (connect st port true).2 = true :=
  ⟨rfl, rfl, rfl⟩

/-- Claim C3: with a resolved port, `upload_firmware` (a) on
`FileNotFoundError` from the primary tool invokes platformio exactly
once, with working directory the firmware path's parent's parent, and
returns its result; (b) on a primary-tool timeout returns the distinct
"Upload timeout" failure and never invokes platformio; (c) on a
nonzero primary exit returns a failure carrying the tool's stderr with
no fallback invocation. -/
theorem upload_firmware_fallback_policy (env : HwEnv) (fp : List String) (p : String) :
    (∀ m, env.esptoolRun = .toolMissing m →
        (upload_firmware env fp (some p)).1 = (upload_with_platformio env fp p).1 ∧
        ((upload_firmware env fp (some p)).2.filter (fun i => i.tool == "platformio")) =
          [{ tool := "platformio", cwd := some (parentDir (parentDir fp)) }])
    ∧ (∀ m, env.esptoolRun = .timedOut m →
        (upload_firmware env fp (some p)).1 =
          { success := false, error := some "Upload timeout" } ∧
        ((upload_firmware env fp (some p)).2.filter (fun i => i.tool == "platformio")) = [])
    ∧ (∀ rc out err, env.esptoolRun = .completed rc out err → rc ≠ 0 →
        (upload_firmware env fp (some p)).1.success = false ∧
        (upload_firmware env fp (some p)).1.error = some err ∧
        ((upload_firmware env fp (some p)).2.filter (fun i => i.tool == "platformio")) = []) := by
  refine ⟨fun m h => ?_, fun m h => ?_, fun rc out err h hrc => ?_⟩
  · cases hp : env.pioRun (parentDir (parentDir fp)) <;>
      simp [upload_firmware, upload_with_platformio, h, hp]
  · simp [upload_firmware, h]
  · simp [upload_firmware, h, hrc]

/-- Concrete hardware environment for the C3 witness: the primary tool
binary is missing and platformio succeeds. -/
def hwEnvW : HwEnv :=
  { esptoolRun := .toolMissing "No such file or directory: esptool.py",
    pioRun := fun _ => .completed 0 "upload ok" "",
    detected := none }

/-- Witness for C3 at a concrete environment: the missing primary tool
triggers exactly one platformio invocation in the firmware's
grandparent directory, whose result is returned. -/
theorem upload_firmware_fallback_policy_witness :
    (upload_firmware hwEnvW ["home", "proj", ".pio", "fw.bin"] (some "COM3")).1 =
      (upload_with_platformio hwEnvW ["home", "proj", ".pio", "fw.bin"] "COM3").1 ∧
    ((upload_firmware hwEnvW ["home", "proj", ".pio", "fw.bin"] (some "COM3")).2.filter
        (fun i => i.tool == "platformio")) =
      [{ tool := "platformio", cwd := some ["home", "proj"] }] :=
  (upload_firmware_fallback_policy hwEnvW ["home", "proj", ".pio", "fw.bin"] "COM3").1
    "No such file or directory: esptool.py" rfl

/-- Counterexample to claim C1: on the input "{}" the primary parse
step succeeds and the extractor returns the parsed empty mapping as-is,
which has no `files`, `platformio_ini` or `config` key — so the
extractor does not always return a manifest of the declared shape. -/
theorem parse_generation_response_shape_cex :
    parse_generation_response "\x7b\x7d" = PyJson.obj [] ∧
    manifestShaped (parse_generation_response "\x7b\x7d") = false ∧
    manifestShaped defaultManifest = true :=
  ⟨rfl, rfl, rfl⟩

/-- Claim C1 amended: the extractor is total (never raises) and its
result is either the value of a successful JSON parse — of the
fence-cleaned content, or of its brace-slice fallback — returned as-is
(possibly lacking the declared keys), or the empty-manifest default,
which alone is guaranteed to have the declared
files/platformio_ini/config shape. -/
theorem parse_generation_response_total_or_parsed (t : String) :
    (parse_generation_response t = defaultManifest ∧
      manifestShaped defaultManifest = true)
    ∨ (loadsL (fenceClean t.data) = some (parse_generation_response t))
    ∨ (loadsL (fenceClean t.data) = none ∧
        ∃ sub, braceSlice (fenceClean t.data) = some sub ∧
          loadsL sub = some (parse_generation_response t)) := by
  cases h1 : loadsL (fenceClean t.data) with
  | some j =>
      right; left
      simp [parse_generation_response, h1]
  | none =>
      cases h2 : braceSlice (fenceClean t.data) with
      | none =>
          left
          exact ⟨by simp [parse_generation_response, fallbackParse, h1, h2], rfl⟩
      | some sub =>
          cases h3 : loadsL sub with
          | some j =>
              right; right
              exact ⟨rfl, sub, rfl,
                by simp [parse_generation_response, fallbackParse, h1, h2, h3]⟩
          | none =>
              left
              exact ⟨by simp [parse_generation_response, fallbackParse, h1, h2, h3], rfl⟩

/-- The concrete input refuting claim C2: valid JSON followed by a
fenced block whose content is not JSON. -/
def t0C2 : String := "\x7b\"files\": \x7b\"a\": \"x\"\x7d\x7d\n```zz```"

/-- Counterexample to claim C2: on `t0C2` the input contains a fenced
block whose fenced content fails to parse, the actual extractor scans
the fenced-and-stripped content (finding no braces, so it returns the
default), while the spec-worded variant that scans the original text
recovers the files object — the two disagree, so the fallback does not
operate on the original text. -/
theorem parse_generation_response_fallback_cex :
    pyContainsL fence3 t0C2.data = true ∧
    loadsL (fenceClean t0C2.data) = none ∧
    parse_generation_response t0C2 = defaultManifest ∧
    parse_generation_response_specC2 t0C2 =
      PyJson.obj [("files", PyJson.obj [("a", PyJson.str "x")])] ∧
    defaultManifest ≠ PyJson.obj [("files", PyJson.obj [("a", PyJson.str "x")])] := by
  refine ⟨rfl, rfl, rfl, rfl, ?_⟩
  simp [defaultManifest]

/-- Claim C2 amended: when the input contains a fenced block and the
fence-cleaned content fails the primary parse, the fallback locates the
first opening brace and the last closing brace in the
fenced-and-stripped content (not in the original text) and attempts to
parse that substring, degrading to the default. -/
theorem parse_generation_response_fallback_stripped (t : String)
    (_hfence : pyContainsL fence3 t.data = true)
    (hfail : loadsL (fenceClean t.data) = none) :
    parse_generation_response t = fallbackParse (fenceClean t.data) := by
  simp [parse_generation_response, hfail]

/-- The concrete input for the C2 witness: a fenced block whose content
fails to parse as a whole but contains a brace-delimited JSON object. -/
def t1C2 : String := "```\nprose \x7b\"k\": 1\x7d tail\n```"

/-- Witness for the amended C2 at a concrete input: the fallback runs
on the stripped fenced content and recovers the object between its
first and last braces. -/
theorem parse_generation_response_fallback_stripped_witness :
    pyContainsL fence3 t1C2.data = true ∧
    loadsL (fenceClean t1C2.data) = none ∧
    parse_generation_response t1C2 = fallbackParse (fenceClean t1C2.data) ∧
    parse_generation_response t1C2 = PyJson.obj [("k", PyJson.int 1)] :=
  ⟨rfl, rfl, parse_generation_response_fallback_stripped t1C2 rfl rfl, rfl⟩

/-- Claim C6: for a project whose primary source file exists and
contains the token "WiFi.softAP", `simulate_project` returns a session
with status "running", the access-point name derived from the project
name by suffixing "_AP", and the access-point default address
192.168.4.1 — never the plain-network default address 192.168.1.100. -/
theorem simulate_project_softap (reg : SimRegistry) (path : List String)
    (board now code : String)
    (h : containsTok "WiFi.softAP" code = true) :
    ((simulate_project reg path board now (some code)).1.status = "running") ∧
    ((simulate_project reg path board now (some code)).1.ap_ssid =
      some (path.getLastD "" ++ "_AP")) ∧
    ((simulate_project reg path board now (some code)).1.ip_address = some "192.168.4.1") ∧
    ((simulate_project reg path board now (some code)).1.ip_address ≠ some "192.168.1.100") := by
  have h2 : (containsTok "WiFi.softAP" code || containsTok "softAP" code) = true := by
    rw [h]; rfl
  cases h1 : (containsTok "WiFi" code || containsTok "WIFI" code) <;>
    cases h3 : (containsTok "WebServer" code || containsTok "server.begin" code
        || containsTok "HTTPServer" code) <;>
      simp [simulate_project, h1, h2, h3]

/-- The concrete source text for the C6 witness. -/
def codeW : String := "void setup() WiFi.softAP(ssid); server.begin();"

/-- Witness for C6 at a concrete project: the access-point token is
present, the session runs with the derived AP name and the AP default
address. -/
theorem simulate_project_softap_witness :
    containsTok "WiFi.softAP" codeW = true ∧
    ((simulate_project (fun _ => none) ["projects", "blinky"] "esp32" "T"
        (some codeW)).1.status = "running") ∧
    ((simulate_project (fun _ => none) ["projects", "blinky"] "esp32" "T"
        (some codeW)).1.ap_ssid = some "blinky_AP") ∧
    ((simulate_project (fun _ => none) ["projects", "blinky"] "esp32" "T"
        (some codeW)).1.ip_address = some "192.168.4.1") := by
  have h := simulate_project_softap (fun _ => none) ["projects", "blinky"] "esp32" "T"
      codeW (by decide)
  exact ⟨by decide, h.1, h.2.1, h.2.2.1⟩

/-- Every exceptional exit of the `generate_code` body carries a result
whose `success` flag is still false: `success` is only set after the
body has completed. -/
theorem generateCodeBody_error_success (env : GenEnv) (fs : FS) (root : List String)
    (name e : String) (r : BuildResult) (fsx : FS)
    (h : generateCodeBody env fs root name = .error (e, r, fsx)) :
    r.success = false := by
  simp only [generateCodeBody] at h
  repeat' split at h
  all_goals
    first
    | exact Except.noConfusion h
    | (injection h with h2
       injection h2 with ha hbc
       injection hbc with hb hc
       subst hb
       rfl)

/-- Claim C4: whatever exception the collaborator call, the response
handling, or the file-writing I/O raises during `generate_code`, the
operation catches it, records the message in the result's `error`
field, appends the error line to the build log, and returns a result
with `success = false`; by totality of `generate_code` no exception
escapes to the caller. -/
theorem generate_code_catches_exceptions (env : GenEnv) (fs : FS) (root : List String)
    (name e : String) (r : BuildResult) (fsx : FS)
    (h : generateCodeBody env fs root name = .error (e, r, fsx)) :
    (generate_code env fs root name).1.success = false ∧
    (generate_code env fs root name).1.error = some e ∧
    (generate_code env fs root name).1.build_log = r.build_log ++ ["Error: " ++ e] := by
  have hs := generateCodeBody_error_success env fs root name e r fsx h
  unfold generate_code
  rw [h]
  exact ⟨hs, rfl, rfl⟩

/-- Concrete environment for the C4 witness: the collaborator call
raises. -/
def genEnvW : GenEnv :=
  { chat := .error "boom"
    mkdirFault := fun _ => none
    writeFault := fun _ => none
    now := "T" }

/-- Witness for C4 at a concrete environment: the raised collaborator
exception is caught, recorded in `error`, logged, and the result is a
failure. -/
theorem generate_code_catches_exceptions_witness :
    (generate_code genEnvW {} ["root"] "Lamp").1.success = false ∧
    (generate_code genEnvW {} ["root"] "Lamp").1.error = some "boom" ∧
    (generate_code genEnvW {} ["root"] "Lamp").1.build_log = ["Error: boom"] := by
  have h := generate_code_catches_exceptions genEnvW {} ["root"] "Lamp" "boom"
      { success := false, timestamp := "T" } {} rfl
  exact ⟨h.1, h.2.1, h.2.2⟩

/-- Claim C7: materializing the same project name twice writes into the
same project directory `root ++ [slugOf name]` — the directory already
exists after the first materialization, so the second `mkdir` with
`exist_ok` is a no-op (no error, reused, and with duplicate-free
directories never duplicated) — and for a path carried by the second
manifest the second content is what remains on disk (the write of a
non-empty `platformio_ini` blob of the second manifest being the only
later write); the slug is the project name with spaces replaced by
underscores, lowercased. -/
theorem materialize_second_wins (fs : FS) (root : List String) (name : String)
    (m1 m2 : List (String × String)) (pio1 pio2 : String) (p c2 : String)
    (hp2 : (p, c2) ∈ m2)
    (_hp1 : p ∈ m1.map Prod.fst)
    (hnd : (m2.map (fun kv => pjoin (root ++ [slugOf name]) kv.1)).Nodup) :
    lookupKV (materialize (materialize fs root name m1 pio1) root name m2 pio2).files
        (pjoin (root ++ [slugOf name]) p) =
      some (if pio2 ≠ "" ∧ pjoin (root ++ [slugOf name]) p
              = (root ++ [slugOf name]) ++ ["platformio.ini"] then pio2 else c2) ∧
    (root ++ [slugOf name]) ∈ (materialize fs root name m1 pio1).dirs ∧
    mkdirExistOk (materialize fs root name m1 pio1).dirs (root ++ [slugOf name])
      = (materialize fs root name m1 pio1).dirs ∧
    (fs.dirs.Nodup →
      (materialize (materialize fs root name m1 pio1) root name m2 pio2).dirs.Nodup) ∧
    (slugOf name).data =
      (name.data.map (fun c => if c = ' ' then '_' else c)).map Char.toLower := by
  refine ⟨?_, pd_mem_materialize fs root name m1 pio1,
    mkdirExistOk_of_mem _ _ (pd_mem_materialize fs root name m1 pio1),
    fun hnodup => nodup_materialize _ _ _ _ _ (nodup_materialize _ _ _ _ _ hnodup),
    rfl⟩
  by_cases hpio : pio2 = ""
  · subst hpio
    simp only [materialize, ne_eq, not_true_eq_false, if_false, false_and, ite_false]
    exact writeFold_files_mem _ _ _ _ _ hp2 hnd
  · by_cases hpp : pjoin (root ++ [slugOf name]) p
        = (root ++ [slugOf name]) ++ ["platformio.ini"]
    · simp only [materialize, ne_eq, hpio, not_false_eq_true, if_true, hpp, and_true,
        ite_true, if_pos]
      exact lookupKV_setKV_self _ _ _
    · simp only [materialize, ne_eq, hpio, not_false_eq_true, if_true, hpp, and_false,
        ite_false, if_pos]
      rw [lookupKV_setKV_ne _ _ _ _ hpp]
      exact writeFold_files_mem _ _ _ _ _ hp2 hnd

/-- Witness for C7 at a concrete double materialization of project
"My App": the shared path holds the second content, and the slugged
project directory from the first run is reused without error. -/
theorem materialize_second_wins_witness :
    lookupKV (materialize (materialize {} ["projects"] "My App"
          [("src/main.cpp", "one")] "")
        ["projects"] "My App" [("src/main.cpp", "two"), ("README.md", "r")] "").files
        (pjoin ["projects", "my_app"] "src/main.cpp") = some "two" ∧
    ["projects", "my_app"] ∈ (materialize {} ["projects"] "My App"
        [("src/main.cpp", "one")] "").dirs ∧
    mkdirExistOk (materialize {} ["projects"] "My App"
          [("src/main.cpp", "one")] "").dirs ["projects", "my_app"]
      = (materialize {} ["projects"] "My App" [("src/main.cpp", "one")] "").dirs := by
  have h := materialize_second_wins {} ["projects"] "My App"
      [("src/main.cpp", "one")] [("src/main.cpp", "two"), ("README.md", "r")]
      "" "" "src/main.cpp" "two" (by decide) (by decide) (by decide)
  exact ⟨by simpa using h.1, h.2.1, h.2.2.1⟩
